import Mathlib

/-!
Shallow embedding of the repository diff-state orchestration layer of
`git-webdiff` (files `webdiff/app.py` and `webdiff/argparser.py`).

External effects (the `git diff --quiet` probe, `git difftool` process launch
and its two-line stdout protocol, the snapshot computer `dirdiff.gitdiff`, and
the checksum command) are modelled as oracle values supplied through
environment records; the control flow acting on those values is translated
directly from the Python source.  Machine-level details: process handles are
`Nat`, file pairs and checksums are opaque strings.
-/

/-- A handle to an OS process (opaque identity). -/
abbrev Proc := Nat

/-- One file-pair record, opaque to the orchestration layer. -/
abbrev FilePair := String

/-- A SHA-256 checksum hex string. -/
abbrev Checksum := String

/-- Per-repository mutable state, from the `REPO_STATES` entry layout and
`init_repo_state` in `app.py` (locks carry no data and are omitted; the
`reload_in_progress` flag they guard is kept). -/
structure RepoState where
  git_args : List String
  difftool_proc : Option Proc
  diff : List FilePair
  initial_checksum : Option Checksum
  current_checksum : Option Checksum
  reload_in_progress : Bool
deriving DecidableEq, Repr

/-- Outcome of the `git diff --quiet` pre-flight probe
(`subprocess.run` in `start_git_difftool`): a return code, a
`TimeoutExpired`, or some other raised exception. -/
inductive ProbeOutcome where
  | exited (code : Int)
  | timedOut
  | raised (msg : String)
deriving DecidableEq, Repr

/-- Oracle environment for one call to `start_git_difftool`: the probe's
outcome, whether `Popen` succeeds (with the resulting handle), the two raw
lines read from the helper's stdout, and whether each reported path is an
existing directory. -/
structure StartEnv where
  probe : ProbeOutcome
  launch : Option Proc
  line1 : String
  line2 : String
  isdir1 : Bool
  isdir2 : Bool
deriving DecidableEq, Repr

/-- Observable result of `start_git_difftool`: the Python return value
(`None` or `(proc, left_dir, right_dir)`) plus whether `proc.kill()` was
invoked on a failure path. -/
structure StartResult where
  result : Option (Proc × String × String)
  killed : Bool
deriving DecidableEq, Repr

/-- Python's `str.strip()`: remove whitespace from both ends. -/
def py_strip (s : String) : String :=
  String.mk (((s.data.dropWhile Char.isWhitespace).reverse.dropWhile
    Char.isWhitespace).reverse)

/-- Model of `start_git_difftool(git_args, git_cwd)` from `app.py`.
Probe exit code 0 (no differences), exit codes above 1, a probe timeout, a
probe exception, and a launch/read exception all return `None`; only exit
codes `≤ 1` other than `0` (in practice `1`) proceed to launching the helper.
After launch, each stdout line is stripped; an empty line or a missing
directory kills the process and returns `None`. -/
def start_git_difftool (env : StartEnv) : StartResult :=
  match env.probe with
  | .exited code =>
    if code = 0 then
      { result := none, killed := false }
    else if code > 1 then
      { result := none, killed := false }
    else
      match env.launch with
      | none => { result := none, killed := false }
      | some proc =>
        let left := py_strip env.line1
        let right := py_strip env.line2
        if left = "" ∨ right = "" then
          { result := none, killed := true }
        else if env.isdir1 = false ∨ env.isdir2 = false then
          { result := none, killed := true }
        else
          { result := some (proc, left, right), killed := false }
  | .timedOut => { result := none, killed := false }
  | .raised _ => { result := none, killed := false }

/-- Oracle environment for one call to `refresh_repo_diff`: the environment
of its `start_git_difftool` call, the snapshot computer's result
(`dirdiff.gitdiff`, which may raise), the value returned by
`compute_diff_checksum_for_repo` for the effective arguments, and an
optional exception raised inside the outer `try` by some other collaborator
(modelled as occurring before the body; no statement in the body itself
raises past its own handlers). -/
structure RefreshEnv where
  start : StartEnv
  gitdiff : Except String (List FilePair)
  checksum : Option Checksum
  unexpected : Option String
deriving Repr

/-- Observable result of `refresh_repo_diff`: the repository state after the
call, the `(success, message)` pair it returns, and whether the freshly
started helper process was killed by the compute-failure handler. -/
structure RefreshOutput where
  state : RepoState
  ok : Bool
  msg : String
  killed_new : Bool
deriving DecidableEq, Repr

/-- Body of `refresh_repo_diff` after the reload gate has been acquired
(`state['reload_in_progress']` is true on entry).  Translated from the
`try` block of `refresh_repo_diff` in `app.py`: terminate the old helper
process (its handle is left in place), call `start_git_difftool`; on `None`
publish the empty snapshot and reset both checksums; on success run the
snapshot computer, publish, and reset both checksums; on a computer
exception kill the new process and return a failure with the prior state
intact.  Every exit path clears `reload_in_progress`. -/
def refresh_body (env : RefreshEnv) (new_git_args : Option (List String))
    (st : RepoState) : RefreshOutput :=
  match env.unexpected with
  | some e =>
    { state := { st with reload_in_progress := false },
      ok := false, msg := e, killed_new := false }
  | none =>
    match (start_git_difftool env.start).result with
    | none =>
      { state := { st with
          difftool_proc := none,
          diff := [],
          git_args := new_git_args.getD st.git_args,
          current_checksum := env.checksum,
          initial_checksum := env.checksum,
          reload_in_progress := false },
        ok := true, msg := "Reloaded (0 files - no differences)",
        killed_new := false }
    | some r =>
      match env.gitdiff with
      | .ok new_diff =>
        { state := { st with
            difftool_proc := some r.1,
            diff := new_diff,
            git_args := new_git_args.getD st.git_args,
            current_checksum := env.checksum,
            initial_checksum := env.checksum,
            reload_in_progress := false },
          ok := true,
          msg := "Reloaded " ++ toString new_diff.length ++ " files",
          killed_new := false }
      | .error e =>
        { state := { st with reload_in_progress := false },
          ok := false, msg := "Failed to compute diff: " ++ e,
          killed_new := true }

/-- Model of `refresh_repo_diff(repo_idx, new_git_args)` from `app.py`, for the
repository's state (the index bounds check selects which state is passed).
If a reload is already in progress the call returns
`(False, "Reload already in progress")` immediately with no mutation;
otherwise the flag is set and the body runs. -/
def refresh_repo_diff (env : RefreshEnv) (new_git_args : Option (List String))
    (st : RepoState) : RefreshOutput :=
  if st.reload_in_progress then
    { state := st, ok := false, msg := "Reload already in progress",
      killed_new := false }
  else
    refresh_body env new_git_args { st with reload_in_progress := true }

/-- The boolean computed by the `diff_changed` route of `app.py`:
`initial_checksum is not None and current_checksum is not None and
current_checksum != initial_checksum`. -/
def checksum_changed (st : RepoState) : Bool :=
  st.initial_checksum.isSome && st.current_checksum.isSome &&
    st.current_checksum != st.initial_checksum

/-- The JSON body returned by the `diff_changed` route. -/
structure DiffChangedResponse where
  watch_enabled : Bool
  changed : Bool
deriving DecidableEq, Repr

/-- The `/api/diff-changed/{repo_idx}` handler of `app.py`: `none` models
the 404 on an out-of-range index; with watch mode globally disabled it
reports `(false, false)` without reading any state; otherwise it reads the
two checksum fields of the indexed repository. -/
def diff_changed (watch_enabled : Bool) (repos : List RepoState)
    (idx : Nat) : Option DiffChangedResponse :=
  if h : idx < repos.length then
    if watch_enabled then
      some { watch_enabled := true, changed := checksum_changed (repos.get ⟨idx, h⟩) }
    else
      some { watch_enabled := false, changed := false }
  else
    none

/-- One repository's step of one cycle of `check_for_changes_thread` in
`app.py`: `compute_diff_checksum_for_repo` yields `new_checksum`; on `None`
the repository is skipped this cycle, otherwise only `current_checksum` is
overwritten. -/
def watch_cycle_repo (new_checksum : Option Checksum) (st : RepoState) : RepoState :=
  match new_checksum with
  | none => st
  | some c => { st with current_checksum := some c }

/-- A repository descriptor: the `{label, path}` dicts of `argparser.py`. -/
structure Repo where
  label : String
  path : String
deriving DecidableEq, Repr

/-- The filesystem facts that validation consults (`os.path.isabs`,
`os.path.exists`, `os.path.isdir`, `os.path.abspath`), as an oracle. -/
structure FS where
  isabs : String → Bool
  path_exists : String → Bool
  isdir : String → Bool
  abspath : String → String

/-- Model of `validate_single_repo(label, path)` from `argparser.py`, returning
`some message` for the `(False, message)` outcome and `none` for
`(True, None)`, with the source's check order. -/
def validate_single_repo (fs : FS) (label : String) (path : String) : Option String :=
  if py_strip label = "" then
    some "Label cannot be empty"
  else if label.contains ':' then
    some "Label cannot contain colon (:)"
  else if fs.isabs path = false then
    some "Path must be absolute"
  else if fs.path_exists path = false then
    some "Path does not exist"
  else if fs.isdir path = false then
    some "Path is not a directory"
  else if fs.path_exists (path ++ "/.git") = false then
    some "Path is not a git repository (no .git directory)"
  else
    none

/-- The distinct failure causes of `validate_repo_list` (its message strings
interpolate Python-set contents whose order is unspecified, so causes are
kept symbolic). -/
inductive ValidationError where
  | emptyList
  | dupLabels
  | dupPaths
  | badRepo (label : String) (err : String)
deriving DecidableEq, Repr

/-- Model of `validate_repo_list(repos)` from `argparser.py`: empty list, duplicate
labels (`len(labels) != len(set(labels))`), duplicate normalized paths, then
the first individually invalid repository; `none` means valid. -/
def validate_repo_list (fs : FS) (repos : List Repo) : Option ValidationError :=
  if repos.length = 0 then
    some .emptyList
  else if ¬ (repos.map Repo.label).Nodup then
    some .dupLabels
  else if ¬ (repos.map (fun r => fs.abspath r.path)).Nodup then
    some .dupPaths
  else
    repos.findSome? fun r =>
      (validate_single_repo fs r.label r.path).map fun e =>
        ValidationError.badRepo r.label e

/-- Model of `init_repo_state(repo, git_args)` from `app.py` (the lock objects carry
no data and are omitted). -/
def init_repo_state (git_args : List String) : RepoState :=
  { git_args := git_args, difftool_proc := none, diff := [],
    initial_checksum := none, current_checksum := none,
    reload_in_progress := false }

/-- Oracle environment for one call to `start_repo`: the environment of its
`start_git_difftool` call, the snapshot computer's result (uncaught here, so
an exception propagates to the caller), and the checksum value computed when
watch mode is on. -/
structure StartRepoEnv where
  start : StartEnv
  gitdiff : Except String (List FilePair)
  checksum : Option Checksum

/-- Model of `start_repo(repo_idx, repo_path, git_args, watch_enabled)` from
`app.py`, as a transform of the indexed repository's state.  A snapshot
computer exception escapes after `difftool_proc` has already been assigned,
so the error value carries the partially mutated state. -/
def start_repo (watch_enabled : Bool) (env : StartRepoEnv)
    (st : RepoState) : Except (String × RepoState) RepoState :=
  let set_checksums := fun (s : RepoState) =>
    if watch_enabled then
      { s with initial_checksum := env.checksum, current_checksum := env.checksum }
    else s
  match (start_git_difftool env.start).result with
  | none =>
    .ok (set_checksums { st with difftool_proc := none, diff := [] })
  | some r =>
    match env.gitdiff with
    | .error e => .error (e, { st with difftool_proc := some r.1 })
    | .ok d =>
      .ok (set_checksums { st with difftool_proc := some r.1, diff := d })

/-- The repository registry: the `REPOS` and `REPO_STATES` globals of
`app.py`. -/
structure Registry where
  repos : List Repo
  states : List RepoState
deriving DecidableEq, Repr

/-- Oracle environments for `update_repos`: one `StartRepoEnv` per new
repository index during installation, and one per old repository index
during a rollback restart. -/
structure UpdateEnv where
  install : Nat → StartRepoEnv
  rollback : Nat → StartRepoEnv

/-- The install loop of `update_repos`: for each new descriptor, build a
fresh state with `init_repo_state` and run `start_repo` on it; the first
exception aborts the loop (the partially built list is discarded by the
rollback that follows). -/
def build_states (watch_enabled : Bool) (git_args : List String)
    (f : Nat → StartRepoEnv) (i : Nat) : List Repo → Except String (List RepoState)
  | [] => .ok []
  | _ :: rest =>
    match start_repo watch_enabled (f i) (init_repo_state git_args) with
    | .error e => .error e.1
    | .ok st =>
      match build_states watch_enabled git_args f (i + 1) rest with
      | .error e => .error e
      | .ok sts => .ok (st :: sts)

/-- The rollback loop of `update_repos`: re-run `start_repo` on each
restored old state; an exception aborts the loop (the critical-failure
path), leaving the failing state partially mutated and later states
untouched.  Returns the states plus whether the loop completed. -/
def rollback_restart (watch_enabled : Bool) (g : Nat → StartRepoEnv) :
    Nat → List RepoState → List RepoState × Bool
  | _, [] => ([], true)
  | i, st :: rest =>
    match start_repo watch_enabled (g i) st with
    | .ok st' =>
      let r := rollback_restart watch_enabled g (i + 1) rest
      (st' :: r.1, r.2)
    | .error e => (e.2 :: rest, false)

/-- The failure causes reported by `update_repos`. -/
inductive UpdateError where
  | validation (e : ValidationError)
  | updateFailed (msg : String)
deriving DecidableEq, Repr

/-- Observable result of `update_repos`: the registry after the call, the
`(success, error)` pair, and whether `cleanup_difftool_processes` was
invoked (i.e. whether any live helper process was terminated). -/
structure UpdateOutput where
  registry : Registry
  ok : Bool
  err : Option UpdateError
  cleaned : Bool

/-- Model of `update_repos(new_repos)` from `app.py`: validate the candidate list
first and abort with no side effects on failure; otherwise terminate all
old helper processes, install fresh states with an initial `start_repo`
each, and on any exception restore the saved registry and re-run
`start_repo` on each restored state. -/
def update_repos (fs : FS) (git_args : List String) (watch_enabled : Bool)
    (env : UpdateEnv) (reg : Registry) (new_repos : List Repo) : UpdateOutput :=
  match validate_repo_list fs new_repos with
  | some e =>
    { registry := reg, ok := false, err := some (.validation e), cleaned := false }
  | none =>
    match build_states watch_enabled git_args env.install 0 new_repos with
    | .ok sts =>
      { registry := { repos := new_repos, states := sts },
        ok := true, err := none, cleaned := true }
    | .error e =>
      let restored := rollback_restart watch_enabled env.rollback 0 reg.states
      { registry := { repos := reg.repos, states := restored.1 },
        ok := false, err := some (.updateFailed e), cleaned := true }

/-- The running label-count map of `ensure_unique_labels`
(`label_counts` in `argparser.py`); a count of `0` encodes absence, matching
the `label in label_counts` test since stored counts are always positive. -/
def ensure_unique_go (counts : String → Nat) : List Repo → List Repo
  | [] => []
  | repo :: rest =>
    let original := repo.label
    if counts original ≠ 0 then
      let count := counts original
      let counts' := fun l => if l = original then count + 1 else counts l
      { label := original ++ "-" ++ toString count, path := repo.path } ::
        ensure_unique_go counts' rest
    else
      let counts' := fun l => if l = original then 1 else counts l
      { label := original, path := repo.path } :: ensure_unique_go counts' rest

/-- Model of `ensure_unique_labels(repos)` from `argparser.py`. -/
def ensure_unique_labels (repos : List Repo) : List Repo :=
  ensure_unique_go (fun _ => 0) repos

/-- Concrete fixture: a repository state with one published file pair and a
live helper process. -/
def stA : RepoState :=
  { git_args := ["HEAD"], difftool_proc := some 3, diff := ["f1"],
    initial_checksum := some "aa", current_checksum := some "aa",
    reload_in_progress := false }

/-- Concrete fixture: `stA` with a reload in flight. -/
def stBusy : RepoState := { stA with reload_in_progress := true }

/-- Concrete fixture: a fully successful `start_git_difftool` environment. -/
def startOk : StartEnv :=
  { probe := .exited 1, launch := some 7, line1 := "/tmp/left\n",
    line2 := "/tmp/right\n", isdir1 := true, isdir2 := true }

/-- Concrete fixture: the helper hands back an empty second line. -/
def startProtoViolation : StartEnv := { startOk with line2 := "\n" }

/-- Concrete fixture: the pre-flight probe times out. -/
def startTimeout : StartEnv := { startOk with probe := .timedOut }

/-- Concrete fixture: a fully successful refresh environment publishing two
file pairs with checksum `cc`. -/
def envSuccess : RefreshEnv :=
  { start := startOk, gitdiff := .ok ["f1", "f2"], checksum := some "cc",
    unexpected := none }

/-- Concrete fixture: a refresh whose helper violates the two-line
protocol. -/
def envProtoViolation : RefreshEnv :=
  { envSuccess with start := startProtoViolation }

/-- Concrete fixture: a refresh whose snapshot computer raises. -/
def envComputeFail : RefreshEnv := { envSuccess with gitdiff := .error "boom" }

/-- Concrete fixture: a filesystem oracle on which nothing exists. -/
def fsNone : FS :=
  { isabs := fun _ => false, path_exists := fun _ => false,
    isdir := fun _ => false, abspath := fun p => p }

/-- Concrete fixture: an `update_repos` environment whose every
`start_repo` finds no differences. -/
def updEnv0 : UpdateEnv :=
  { install := fun _ => { start := startTimeout, gitdiff := .ok [], checksum := none },
    rollback := fun _ => { start := startTimeout, gitdiff := .ok [], checksum := none } }

/-- Concrete fixture: a one-repository registry with a live helper
process. -/
def reg0 : Registry :=
  { repos := [{ label := "a", path := "/p" }], states := [stA] }

/-- Concrete fixture: a candidate list with a duplicate label. -/
def dupRepos : List Repo :=
  [{ label := "a", path := "/p" }, { label := "a", path := "/q" }]

/-- Concrete fixture: an input list on which `ensure_unique_labels` emits a
duplicate (the third label collides with the literal second label after
suffixing). -/
def collidingRepos : List Repo :=
  [{ label := "a", path := "/p1" }, { label := "a-1", path := "/p2" },
   { label := "a", path := "/p3" }]

/-- Helper: every exit path of the refresh body clears the
`reload_in_progress` flag. -/
theorem refresh_body_clears_flag (env : RefreshEnv)
    (a : Option (List String)) (st : RepoState) :
    (refresh_body env a st).state.reload_in_progress = false := by
  unfold refresh_body
  cases env.unexpected with
  | some e => rfl
  | none =>
    cases (start_git_difftool env.start).result with
    | none => rfl
    | some r =>
      cases env.gitdiff with
      | ok d => rfl
      | error e => rfl

/-- C5: if a reload is already in flight for a repository, a further
refresh call returns the already-in-progress failure immediately, without
mutating any field of that repository's state. -/
theorem refresh_already_in_progress (env : RefreshEnv)
    (a : Option (List String)) (st : RepoState)
    (h : st.reload_in_progress = true) :
    refresh_repo_diff env a st =
      { state := st, ok := false, msg := "Reload already in progress",
        killed_new := false } := by
  simp [refresh_repo_diff, h]

/-- Witness for C5 at a concrete busy state. -/
theorem refresh_already_in_progress_witness :
    refresh_repo_diff envSuccess none stBusy =
      { state := stBusy, ok := false, msg := "Reload already in progress",
        killed_new := false } :=
  refresh_already_in_progress envSuccess none stBusy rfl

/-- C4: a refresh that acquires the reload gate runs its body on a state
whose `reload_in_progress` flag is true, and the flag is false again in the
state returned on every exit path of the body (success, no-differences,
compute failure, and the unexpected-exception handler). -/
theorem reload_flag_lifecycle (env : RefreshEnv) (a : Option (List String))
    (st : RepoState) (h : st.reload_in_progress = false) :
    refresh_repo_diff env a st =
      refresh_body env a { st with reload_in_progress := true } ∧
    ({ st with reload_in_progress := true } : RepoState).reload_in_progress = true ∧
    ∀ (env2 : RefreshEnv) (a2 : Option (List String)) (st2 : RepoState),
      (refresh_body env2 a2 st2).state.reload_in_progress = false := by
  refine ⟨by simp [refresh_repo_diff, h], rfl, ?_⟩
  intro env2 a2 st2
  exact refresh_body_clears_flag env2 a2 st2

/-- Witness for C4 at a concrete state and environment. -/
theorem reload_flag_lifecycle_witness :
    (refresh_body envSuccess none { stA with reload_in_progress := true
      }).state.reload_in_progress = false :=
  (reload_flag_lifecycle envSuccess none stA rfl).2.2 envSuccess none
    { stA with reload_in_progress := true }

/-- C8: one watcher cycle step for a repository writes only
`current_checksum`: the snapshot, baseline checksum, arguments, process
handle and reload flag are untouched, and a failed checksum computation
(`none`) leaves the state entirely unchanged (the failure is swallowed, not
escalated: the step is total). -/
theorem watch_cycle_frame (c : Option Checksum) (st : RepoState) :
    (watch_cycle_repo c st).initial_checksum = st.initial_checksum ∧
    (watch_cycle_repo c st).diff = st.diff ∧
    (watch_cycle_repo c st).git_args = st.git_args ∧
    (watch_cycle_repo c st).difftool_proc = st.difftool_proc ∧
    (watch_cycle_repo c st).reload_in_progress = st.reload_in_progress ∧
    (c = none → watch_cycle_repo c st = st) ∧
    (∀ x, c = some x → (watch_cycle_repo c st).current_checksum = some x) := by
  cases c <;> simp [watch_cycle_repo]

/-- Witness for C8 at concrete inputs. -/
theorem watch_cycle_frame_witness :
    watch_cycle_repo none stA = stA ∧
    (watch_cycle_repo (some "dd") stA).current_checksum = some "dd" :=
  ⟨(watch_cycle_frame none stA).2.2.2.2.2.1 rfl,
   (watch_cycle_frame (some "dd") stA).2.2.2.2.2.2 "dd" rfl⟩

/-- C3: if the snapshot computer raises during a refresh, the refresh kills
the freshly started helper process, returns the compute failure, and leaves
the previously published state (snapshot, both checksums, stored arguments,
process handle) untouched. -/
theorem refresh_compute_failed_preserves_state (env : RefreshEnv)
    (a : Option (List String)) (st : RepoState)
    (r : Proc × String × String) (e : String)
    (hflag : st.reload_in_progress = false)
    (hu : env.unexpected = none)
    (hs : (start_git_difftool env.start).result = some r)
    (hg : env.gitdiff = .error e) :
    refresh_repo_diff env a st =
      { state := st, ok := false, msg := "Failed to compute diff: " ++ e,
        killed_new := true } := by
  cases st
  simp_all [refresh_repo_diff, refresh_body]

/-- Witness for C3 at a concrete state and environment. -/
theorem refresh_compute_failed_witness :
    refresh_repo_diff envComputeFail none stA =
      { state := stA, ok := false, msg := "Failed to compute diff: boom",
        killed_new := true } :=
  refresh_compute_failed_preserves_state envComputeFail none stA
    (7, "/tmp/left", "/tmp/right") "boom" rfl rfl (by decide) rfl

/-- C6: every refresh that returns success (the computed-snapshot path and
the no-differences path alike) sets both checksums to the one recomputed
value, so immediately afterwards the two checksums are equal and change
detection reports unchanged. -/
theorem refresh_success_resets_baseline (env : RefreshEnv)
    (a : Option (List String)) (st : RepoState)
    (h : (refresh_repo_diff env a st).ok = true) :
    (refresh_repo_diff env a st).state.current_checksum = env.checksum ∧
    (refresh_repo_diff env a st).state.initial_checksum = env.checksum ∧
    checksum_changed (refresh_repo_diff env a st).state = false := by
  obtain ⟨se, gd, ck, ue⟩ := env
  cases hf : st.reload_in_progress with
  | true => simp_all [refresh_repo_diff]
  | false =>
    cases ue with
    | some e => simp_all [refresh_repo_diff, refresh_body]
    | none =>
      cases hs : (start_git_difftool se).result with
      | none => simp_all [refresh_repo_diff, refresh_body, checksum_changed]
      | some r =>
        cases gd with
        | ok d => simp_all [refresh_repo_diff, refresh_body, checksum_changed]
        | error e => simp_all [refresh_repo_diff, refresh_body]

/-- Witness for C6 at a concrete successful refresh. -/
theorem refresh_success_resets_baseline_witness :
    (refresh_repo_diff envSuccess none stA).state.current_checksum = some "cc" ∧
    (refresh_repo_diff envSuccess none stA).state.initial_checksum = some "cc" ∧
    checksum_changed (refresh_repo_diff envSuccess none stA).state = false :=
  refresh_success_resets_baseline envSuccess none stA (by decide)

/-- C7: for every valid repository index, the change query reports changed
exactly when both checksums are present and unequal; with watch mode
globally disabled it reports watch-disabled and unchanged regardless of the
stored checksums; and its answer depends only on the two checksum fields of
the indexed state. -/
theorem diff_changed_spec (w : Bool) (repos : List RepoState) (idx : Nat)
    (h : idx < repos.length) :
    (w = false →
      diff_changed w repos idx =
        some { watch_enabled := false, changed := false }) ∧
    (w = true →
      diff_changed w repos idx =
        some { watch_enabled := true,
               changed := checksum_changed (repos.get ⟨idx, h⟩) } ∧
      (checksum_changed (repos.get ⟨idx, h⟩) = true ↔
        (repos.get ⟨idx, h⟩).initial_checksum.isSome = true ∧
        (repos.get ⟨idx, h⟩).current_checksum.isSome = true ∧
        (repos.get ⟨idx, h⟩).current_checksum ≠
          (repos.get ⟨idx, h⟩).initial_checksum)) ∧
    (∀ (repos2 : List RepoState) (h2 : idx < repos2.length),
      (repos2.get ⟨idx, h2⟩).initial_checksum =
        (repos.get ⟨idx, h⟩).initial_checksum →
      (repos2.get ⟨idx, h2⟩).current_checksum =
        (repos.get ⟨idx, h⟩).current_checksum →
      diff_changed w repos2 idx = diff_changed w repos idx) := by
  refine ⟨fun hw => ?_, fun hw => ⟨?_, ?_⟩, ?_⟩
  · subst hw; simp [diff_changed, h]
  · subst hw; simp [diff_changed, h]
  · simp [checksum_changed, and_assoc]
  · intro repos2 h2 hinit hcur
    cases w with
    | false => simp [diff_changed, h, h2]
    | true =>
      simp only [List.get_eq_getElem] at hinit hcur
      simp [diff_changed, h, h2, checksum_changed, hinit, hcur]

/-- Witness for C7 at a concrete one-repository list. -/
theorem diff_changed_spec_witness :
    diff_changed true [stA] 0 =
      some { watch_enabled := true, changed := false } ∧
    diff_changed false [stA] 0 =
      some { watch_enabled := false, changed := false } := by
  have t := diff_changed_spec true [stA] 0 (by decide)
  have f := diff_changed_spec false [stA] 0 (by decide)
  exact ⟨by rw [(t.2.1 rfl).1]; rfl, f.1 rfl⟩

/-- C1 counterexample: when the helper hands back an empty directory line,
`start_git_difftool` does kill the process and fail, but the subsequent
refresh IS a success and the previously published snapshot IS replaced (by
the empty snapshot), contradicting the claim. -/
theorem refresh_protocol_violation_counterexample :
    (start_git_difftool envProtoViolation.start).result = none ∧
    (start_git_difftool envProtoViolation.start).killed = true ∧
    stA.diff = ["f1"] ∧
    (refresh_repo_diff envProtoViolation none stA).ok = true ∧
    (refresh_repo_diff envProtoViolation none stA).state.diff = [] := by
  decide

/-- C1 amended: on a protocol violation the start operation kills the
process and returns the bare `None` failure sentinel; the subsequent
refresh cannot distinguish this from no-differences, so it publishes the
empty snapshot (replacing the previous one), resets both checksums, and
returns success. -/
theorem refresh_protocol_violation_amended (env : RefreshEnv)
    (a : Option (List String)) (st : RepoState) (p : Proc)
    (hflag : st.reload_in_progress = false)
    (hu : env.unexpected = none)
    (hp : env.start.probe = .exited 1)
    (hl : env.start.launch = some p)
    (hline : py_strip env.start.line1 = "" ∨ py_strip env.start.line2 = "") :
    start_git_difftool env.start = { result := none, killed := true } ∧
    refresh_repo_diff env a st =
      { state := { st with
          difftool_proc := none,
          diff := [],
          git_args := a.getD st.git_args,
          current_checksum := env.checksum,
          initial_checksum := env.checksum,
          reload_in_progress := false },
        ok := true, msg := "Reloaded (0 files - no differences)",
        killed_new := false } := by
  have hs : start_git_difftool env.start = { result := none, killed := true } := by
    unfold start_git_difftool
    rcases hline with h1 | h1 <;> simp [hp, hl, h1]
  refine ⟨hs, ?_⟩
  cases st
  simp_all [refresh_repo_diff, refresh_body]

/-- Witness for the amended C1 at a concrete state and environment. -/
theorem refresh_protocol_violation_amended_witness :
    start_git_difftool envProtoViolation.start = { result := none, killed := true } ∧
    (refresh_repo_diff envProtoViolation none stA).ok = true := by
  have t := refresh_protocol_violation_amended envProtoViolation none stA 7
    rfl rfl rfl rfl (Or.inr (by decide))
  exact ⟨t.1, by rw [t.2]⟩

/-- C2 counterexample: the probe outcomes "no differences" (exit 0),
"probe failed" (exit 2) and "probe timeout" all produce the identical
result from `start_git_difftool` — the failed probe is not a distinct
outcome from no-differences. -/
theorem probe_outcomes_counterexample :
    start_git_difftool { startOk with probe := .exited 0 } =
      start_git_difftool { startOk with probe := .exited 2 } ∧
    start_git_difftool { startOk with probe := .exited 2 } =
      start_git_difftool startTimeout ∧
    (start_git_difftool { startOk with probe := .exited 0 }).result = none := by
  decide

/-- C2 amended: the pre-flight probe yields two distinguishable outcomes,
not three: exit code 0, any exit code above 1, and a timeout all return the
same bare `None`; only exit code 1 proceeds to launch the helper (returning
the handle and both stripped directory paths when the protocol and
directory checks pass). -/
theorem probe_outcomes_amended (env : StartEnv) :
    ((env.probe = .exited 0 ∨ (∃ c : Int, env.probe = .exited c ∧ 1 < c) ∨
        env.probe = .timedOut) →
      start_git_difftool env = { result := none, killed := false }) ∧
    (∀ p : Proc, env.probe = .exited 1 → env.launch = some p →
      py_strip env.line1 ≠ "" → py_strip env.line2 ≠ "" →
      env.isdir1 = true → env.isdir2 = true →
      (start_git_difftool env).result =
        some (p, py_strip env.line1, py_strip env.line2)) := by
  constructor
  · rintro (h | ⟨c, hc, hgt⟩ | h)
    · simp [start_git_difftool, h]
    · simp [start_git_difftool, hc, hgt, (by omega : ¬ c = 0)]
    · simp [start_git_difftool, h]
  · intro p hp hl h1 h2 hd1 hd2
    simp [start_git_difftool, hp, hl, h1, h2, hd1, hd2]

/-- Witness for the amended C2 at concrete environments. -/
theorem probe_outcomes_amended_witness :
    start_git_difftool startTimeout = { result := none, killed := false } ∧
    (start_git_difftool startOk).result =
      some (7, "/tmp/left", "/tmp/right") := by
  have t1 := (probe_outcomes_amended startTimeout).1 (Or.inr (Or.inr rfl))
  have t2 := (probe_outcomes_amended startOk).2 7 rfl rfl (by decide) (by decide)
    rfl rfl
  exact ⟨t1, t2.trans (by decide)⟩

/-- C9: a candidate repository list that fails validation makes
`update_repos` return failure with no side effects: the prior descriptor
list and every prior state (including the live process handles) are
returned unaltered and no process cleanup is performed. -/
theorem update_repos_validation_aborts (fs : FS) (git_args : List String)
    (w : Bool) (env : UpdateEnv) (reg : Registry) (new_repos : List Repo)
    (e : ValidationError)
    (h : validate_repo_list fs new_repos = some e) :
    update_repos fs git_args w env reg new_repos =
      { registry := reg, ok := false, err := some (.validation e),
        cleaned := false } := by
  simp [update_repos, h]

/-- Witness for C9: a duplicate-label candidate list fails validation and
leaves a registry with a live process untouched. -/
theorem update_repos_validation_witness :
    validate_repo_list fsNone dupRepos = some .dupLabels ∧
    update_repos fsNone [] false updEnv0 reg0 dupRepos =
      { registry := reg0, ok := false, err := some (.validation .dupLabels),
        cleaned := false } :=
  ⟨by decide,
   update_repos_validation_aborts fsNone [] false updEnv0 reg0 dupRepos
     .dupLabels (by decide)⟩

/-- C10: `ensure_unique_labels` preserves length and paths, but its output
labels are NOT always pairwise distinct, contradicting its own docstring:
when an input label collides with a previously emitted suffixed label, the
suffixing reproduces that label. -/
theorem ensure_unique_labels_bug :
    (ensure_unique_labels collidingRepos).map Repo.label =
      ["a", "a-1", "a-1"] ∧
    ¬ ((ensure_unique_labels collidingRepos).map Repo.label).Nodup ∧
    (ensure_unique_labels collidingRepos).map Repo.path =
      collidingRepos.map Repo.path ∧
    (ensure_unique_labels collidingRepos).length = collidingRepos.length := by
  decide
